import Mathlib

/-!
Shallow embedding of the Sm-Nd Isotopes UWA data-reduction scripts
(`Sm_Nd_Isotopes_UWA_v4.9.py`, with the v4.8 variant for the
error-propagation step).  Machine floats are idealized as extended
rationals with an explicit NaN; the transcendental kernels (log, pow,
sqrt, log10) are oracle parameters, since only their NaN/sign behaviour
is fixed by the claims.
-/

/-- Idealized IEEE-754 value as used by the numpy pipeline: a finite
rational, an infinity of either sign, or NaN. -/
inductive FP where
  | fin : ℚ → FP
  | pinf : FP
  | ninf : FP
  | nan : FP
deriving DecidableEq

namespace FP

/-- `np.isnan`. -/
def isNan : FP → Bool
  | nan => true
  | _ => false

/-- Finite (neither NaN nor infinite). -/
def isFinite : FP → Bool
  | fin _ => true
  | _ => false

/-- Payload of a finite value (0 otherwise); used only under `isFinite`. -/
def toQ : FP → ℚ
  | fin q => q
  | _ => 0

/-- Elementwise `> 0` as numpy evaluates it (NaN > 0 is false). -/
def gt0 : FP → Bool
  | fin q => decide (0 < q)
  | pinf => true
  | _ => false

/-- IEEE negation. -/
def neg : FP → FP
  | fin q => fin (-q)
  | pinf => ninf
  | ninf => pinf
  | nan => nan

/-- IEEE addition (idealized: no overflow). -/
def add : FP → FP → FP
  | nan, _ => nan
  | _, nan => nan
  | fin a, fin b => fin (a + b)
  | pinf, ninf => nan
  | ninf, pinf => nan
  | pinf, _ => pinf
  | _, pinf => pinf
  | ninf, _ => ninf
  | _, ninf => ninf

/-- IEEE subtraction. -/
def sub (x y : FP) : FP := add x (neg y)

/-- IEEE multiplication (idealized: no overflow/underflow). -/
def mul : FP → FP → FP
  | nan, _ => nan
  | _, nan => nan
  | fin a, fin b => fin (a * b)
  | fin a, pinf => if 0 < a then pinf else if a < 0 then ninf else nan
  | pinf, fin b => if 0 < b then pinf else if b < 0 then ninf else nan
  | fin a, ninf => if 0 < a then ninf else if a < 0 then pinf else nan
  | ninf, fin b => if 0 < b then ninf else if b < 0 then pinf else nan
  | pinf, pinf => pinf
  | ninf, ninf => pinf
  | pinf, ninf => ninf
  | ninf, pinf => ninf

/-- IEEE division as numpy performs it elementwise (division by zero
gives a signed infinity, 0/0 gives NaN; no exception is raised). -/
def div : FP → FP → FP
  | nan, _ => nan
  | _, nan => nan
  | fin a, fin b =>
      if b = 0 then (if a = 0 then nan else if 0 < a then pinf else ninf)
      else fin (a / b)
  | fin _, pinf => fin 0
  | fin _, ninf => fin 0
  | pinf, fin b => if 0 ≤ b then pinf else ninf
  | ninf, fin b => if 0 ≤ b then ninf else pinf
  | pinf, _ => nan
  | ninf, _ => nan

instance : Neg FP := ⟨neg⟩
instance : Add FP := ⟨add⟩
instance : Sub FP := ⟨sub⟩
instance : Mul FP := ⟨mul⟩
instance : Div FP := ⟨div⟩

end FP

/-- Oracle kernels for the transcendental float operations: rational
stand-ins for the float results of `log`, `pow`, `sqrt`, `log10` on
finite positive arguments.  All claims hold either for every oracle or
under the stated hypotheses on it. -/
structure Oracles where
  logQ : ℚ → ℚ
  powQ : ℚ → ℚ → ℚ
  sqrtQ : ℚ → ℚ
  log10Q : ℚ → ℚ

/-- `np.log` lifted to `FP` (negative → NaN, zero → -inf, positive via
the oracle; numpy warns but never raises). -/
def logF (O : Oracles) : FP → FP
  | FP.nan => FP.nan
  | FP.pinf => FP.pinf
  | FP.ninf => FP.nan
  | FP.fin q => if q < 0 then FP.nan else if q = 0 then FP.ninf else FP.fin (O.logQ q)

/-- `np.log10` lifted to `FP`, same conventions as `logF`. -/
def log10F (O : Oracles) : FP → FP
  | FP.nan => FP.nan
  | FP.pinf => FP.pinf
  | FP.ninf => FP.nan
  | FP.fin q => if q < 0 then FP.nan else if q = 0 then FP.ninf else FP.fin (O.log10Q q)

/-- `b ** e` for the finite positive scalar bases appearing in the
script (`b` is always a positive mass-ratio constant); NaN exponents
propagate, except for base 1 as in IEEE `pow`. -/
def powF (O : Oracles) (b : ℚ) : FP → FP := fun e =>
  if b = 1 then FP.fin 1
  else match e with
  | FP.nan => FP.nan
  | FP.fin q => FP.fin (O.powQ b q)
  | FP.pinf => if 1 < b then FP.pinf else if 0 < b then FP.fin 0 else FP.nan
  | FP.ninf => if 1 < b then FP.fin 0 else if 0 < b then FP.pinf else FP.nan

/-- `np.where(d != 0, v, np.nan)` at one sample: numpy's `d != 0` is
true for NaN and infinite `d`, so only an exact finite zero selects the
NaN branch. -/
def whereNE0 (d v : FP) : FP := if d = FP.fin 0 then FP.nan else v

/-- One selection group as `runDRS` sees it: the name, whether its type
is `data.Baseline`, the host's per-selection extraction results for the
two standardized series (`dataForSelection` may raise, modelled as
`Except`), and whether reading the associated result value raises at
the host boundary (the scan's outer `try`). -/
structure SelGroup where
  name : String
  isBaseline : Bool
  smSel : Except Unit (List FP)
  ndSel : Except Unit (List FP)
  outerRaise : Bool

/-- The per-run inputs of `runDRS`: settings, the time-axis length, the
baseline-subtracted CPS channels (arrays over sample index), the mask
produced by `createMaskFromCutoff`, the input-channel names (targets of
`baselineSubtract`), and the selection groups. -/
structure Env where
  n : ℕ
  rmName : String
  rmNames : List String
  NdTrue : ℚ
  Sm147_149 : ℚ
  Sm144_149 : ℚ
  Sm148_149 : ℚ
  propErrors : Bool
  Nd143 : ℕ → FP
  Nd144 : ℕ → FP
  Nd145 : ℕ → FP
  Nd146 : ℕ → FP
  Nd148 : ℕ → FP
  Sm147 : ℕ → FP
  Sm149 : ℕ → FP
  mask : ℕ → FP
  inputChannels : List String
  groups : List SelGroup

/-- `np.where(Sm149 != 0, Sm147 / Sm149, np.nan)`. -/
def measSm (e : Env) (i : ℕ) : FP := whereNE0 (e.Sm149 i) (e.Sm147 i / e.Sm149 i)

/-- `SmFract = (np.log(Sm147_149 / measured)) / np.log(146.9149 / 148.9172) * mask`. -/
def SmFractF (O : Oracles) (e : Env) (i : ℕ) : FP :=
  logF O (FP.fin e.Sm147_149 / measSm e i) / logF O (FP.fin ((146.9149 : ℚ) / 148.9172)) * e.mask i

/-- `Sm144 = Sm149 * Sm144_149 * ((148.9172 / 143.912) ** SmFract) * mask`. -/
def Sm144F (O : Oracles) (e : Env) (i : ℕ) : FP :=
  e.Sm149 i * FP.fin e.Sm144_149 * powF O ((148.9172 : ℚ) / 143.912) (SmFractF O e i) * e.mask i

/-- `Sm148 = Sm149 * Sm148_149 * ((148.9172 / 147.9148) ** SmFract) * mask`. -/
def Sm148F (O : Oracles) (e : Env) (i : ℕ) : FP :=
  e.Sm149 i * FP.fin e.Sm148_149 * powF O ((148.9172 : ℚ) / 147.9148) (SmFractF O e i) * e.mask i

/-- `Nd144c = (Nd144 - Sm144) * mask`. -/
def Nd144cF (O : Oracles) (e : Env) (i : ℕ) : FP := (e.Nd144 i - Sm144F O e i) * e.mask i

/-- `Nd148c = (Nd148 - Sm148) * mask`. -/
def Nd148cF (O : Oracles) (e : Env) (i : ℕ) : FP := (e.Nd148 i - Sm148F O e i) * e.mask i

/-- `Nd144c_safe = np.where(Nd144c != 0, Nd144c, np.nan)`. -/
def Nd144cSafeF (O : Oracles) (e : Env) (i : ℕ) : FP :=
  whereNE0 (Nd144cF O e i) (Nd144cF O e i)

/-- `NdFract = (np.log(NdTrue / np.where(Nd144c_safe != 0, Nd146 / Nd144c_safe, np.nan))) / np.log(145.9131 / 143.9098) * mask`. -/
def NdFractF (O : Oracles) (e : Env) (i : ℕ) : FP :=
  logF O (FP.fin e.NdTrue / whereNE0 (Nd144cSafeF O e i) (e.Nd146 i / Nd144cSafeF O e i)) /
      logF O (FP.fin ((145.9131 : ℚ) / 143.9098)) * e.mask i

/-- `Nd143_144_Corr = (Nd143 / Nd144c_safe) * (142.9098 / 143.9098) ** NdFract * mask`. -/
def Nd143_144_CorrF (O : Oracles) (e : Env) (i : ℕ) : FP :=
  e.Nd143 i / Nd144cSafeF O e i * powF O ((142.9098 : ℚ) / 143.9098) (NdFractF O e i) * e.mask i

/-- `Nd145_144_Corr = (Nd145 / Nd144c_safe) * (144.9126 / 143.9098) ** NdFract * mask`. -/
def Nd145_144_CorrF (O : Oracles) (e : Env) (i : ℕ) : FP :=
  e.Nd145 i / Nd144cSafeF O e i * powF O ((144.9126 : ℚ) / 143.9098) (NdFractF O e i) * e.mask i

/-- `Nd148_144_Corr = (Nd148c / Nd144c_safe) * (147.916889 / 143.9098) ** NdFract * mask`. -/
def Nd148_144_CorrF (O : Oracles) (e : Env) (i : ℕ) : FP :=
  Nd148cF O e i / Nd144cSafeF O e i * powF O ((147.916889 : ℚ) / 143.9098) (NdFractF O e i) * e.mask i

/-- `Sm147_Nd144_Corr = (Sm147 / Nd144c_safe) * mask`. -/
def Sm147_Nd144_CorrF (O : Oracles) (e : Env) (i : ℕ) : FP :=
  e.Sm147 i / Nd144cSafeF O e i * e.mask i

/-- `TotalNd = Nd146 / 0.172 * mask`. -/
def TotalNdF (e : Env) (i : ℕ) : FP := e.Nd146 i / FP.fin (0.172 : ℚ) * e.mask i

/-- Materialize an elementwise quantity over the run's time axis. -/
def seriesOf (n : ℕ) (f : ℕ → FP) : List FP := (List.range n).map f

/-- One spline-standardization block (`try: createSpline; spline(...).data();
referenceMaterialData(...)[key].value(); raw * std / np.where(spline != 0,
spline, np.nan) except: warn`): the returned pair is the published array
and whether the warning was emitted.  Any raised error, including the
shape mismatch a wrong-length spline array would cause, leaves the
initial `np.full_like(raw, np.nan)` array in place. -/
def stdCorrArr (n : ℕ) (raw : ℕ → FP) (spr : Except Unit (List FP))
    (svr : Except Unit ℚ) : List FP × Bool :=
  match spr, svr with
  | .ok s, .ok v =>
      if s.length = n then
        ((List.range n).map fun i => raw i * FP.fin v / whereNE0 (s.getD i FP.nan) (s.getD i FP.nan), false)
      else (List.replicate n FP.nan, true)
  | _, _ => (List.replicate n FP.nan, true)

/-- Whether the standardization block for one ratio fails (collaborator
error or wrong-length spline array). -/
def stdFailed (n : ℕ) (spr : Except Unit (List FP)) (svr : Except Unit ℚ) : Bool :=
  match spr, svr with
  | .ok s, .ok _ => decide (s.length ≠ n)
  | _, _ => true

/-- The elementwise validity predicate of the rho diagnostic,
`~np.isnan(x) & (x > 0)` for one array entry. -/
def validF (x : FP) : Bool := !x.isNan && x.gt0

/-- Validity of one paired sample (`valid = ~isnan(sm) & ~isnan(nd) & (sm > 0) & (nd > 0)`). -/
def validPair (p : FP × FP) : Bool := validF p.1 && validF p.2

/-- Sample mean. -/
def meanQ (xs : List ℚ) : ℚ := xs.sum / xs.length

/-- Mean-centered samples. -/
def centered (xs : List ℚ) : List ℚ := xs.map fun x => x - meanQ xs

/-- `np.cov` with its default one-delta degrees of freedom. -/
def covQ (xs ys : List ℚ) : ℚ :=
  (List.zipWith (fun a b => a * b) (centered xs) (centered ys)).sum / ((xs.length : ℚ) - 1)

/-- Sample variance (the diagonal of `np.cov`). -/
def varQ (xs : List ℚ) : ℚ :=
  ((centered xs).map fun d => d * d).sum / ((xs.length : ℚ) - 1)

/-- `np.corrcoef(xs, ys)[0, 1]` on finite data, with the oracle square
root: NaN for fewer than two samples or zero variance (0/0 in numpy),
otherwise the Pearson quotient clipped to `[-1, 1]`. -/
def corrcoefQ (O : Oracles) (xs ys : List ℚ) : FP :=
  if xs.length ≤ 1 ∨ ys.length ≠ xs.length then FP.nan
  else if varQ xs = 0 ∨ varQ ys = 0 then FP.nan
  else FP.fin (max (-1) (min 1 (covQ xs ys / (O.sqrtQ (varQ xs) * O.sqrtQ (varQ ys)))))

/-- `np.corrcoef` on the log arrays: if any entry is infinite the
mean-centered products contain `inf - inf = nan` and the coefficient is
NaN; on all-finite data it is the rational Pearson computation. -/
def corrcoefF (O : Oracles) (xs ys : List FP) : FP :=
  if xs.all FP.isFinite && ys.all FP.isFinite then
    corrcoefQ O (xs.map FP.toQ) (ys.map FP.toQ)
  else FP.nan

/-- The body of `rho_corr_147Sm_143Nd` after successful extraction of
equal-length `sm` and `nd`: filter to the valid paired samples, and if
any pass, correlate the base-10 logs, else NaN. -/
def rhoFromData (O : Oracles) (sm nd : List FP) : FP :=
  if (sm.zip nd).any validPair then
    corrcoefF O (((sm.zip nd).filter validPair).map fun p => log10F O p.1)
      (((sm.zip nd).filter validPair).map fun p => log10F O p.2)
  else FP.nan

/-- The message logged by `rho_corr_147Sm_143Nd` when an exception is
caught (the selection's identity is included). -/
def rhoErrMsg (nm : String) : String :=
  "[rho_corr_147Sm_143Nd] Error in selection " ++ nm

/-- `rho_corr_147Sm_143Nd(sel)`: the result value together with the
messages it emits.  Failed extraction, or the shape-mismatch error a
length disagreement would raise inside the `try`, is caught and
degrades to NaN after logging the selection's name. -/
def rho_corr_147Sm_143Nd (O : Oracles) (g : SelGroup) : FP × List String :=
  match g.smSel, g.ndSel with
  | .ok sm, .ok nd =>
      if sm.length = nd.length then (rhoFromData O sm nd, [])
      else (FP.nan, [rhoErrMsg g.name])
  | _, _ => (FP.nan, [rhoErrMsg g.name])

/-- The scalar rho reported for a selection group. -/
def rhoValue (O : Oracles) (g : SelGroup) : FP := (rho_corr_147Sm_143Nd O g).1

/-- The scan of `runDRS` that fills the flat rho series: walk the
selection groups in order, skip `Baseline`-typed groups, skip groups
whose evaluation raises at the host boundary (`except: continue`), and
stop at the first non-NaN rho value. -/
def scanRho (O : Oracles) : List SelGroup → Option FP
  | [] => none
  | g :: gs =>
      if g.isBaseline then scanRho O gs
      else if g.outerRaise then scanRho O gs
      else if (rhoValue O g).isNan then scanRho O gs
      else some (rhoValue O g)

/-- Observable host-store effects of one reduction run. -/
inductive Event where
  | message : String → Event
  | setSetting : String → String → Event
  | baselineSub : String → Event
  | createTS : String → List FP → Event
  | setData : String → List FP → Event
  | registerAR : String → Event
  | propagate : List String → List String → String → String → Event
  | finished : Event
deriving DecidableEq

/-- The spline/reference-material collaborator, indexed by the resolved
reference-material name: spline data for each published raw series and
the accepted-value lookups, each of which may raise. -/
structure SplineOracle where
  spline143 : String → Except Unit (List FP)
  std143 : String → Except Unit ℚ
  spline147 : String → Except Unit (List FP)
  std147 : String → Except Unit ℚ

/-- Reference-material resolution (lines 52–62 of v4.9, identical in
v4.8): keep a configured name that is available; otherwise prefer
"G_LREE", then the first available name (either fallback persisted to
settings, flagged `true` here); with no names at all the run aborts. -/
def resolveRM (rmName : String) (rmNames : List String) : Option (String × Bool) :=
  if rmName ∈ rmNames then some (rmName, false)
  else if "G_LREE" ∈ rmNames then some ("G_LREE", true)
  else match rmNames with
  | [] => none
  | x :: _ => some (x, true)

/-- The happy-path tail of `runDRS` (v4.9) once the reference material
resolved to `rm` (with `fb` recording whether a fallback was taken). -/
def runCore_v49 (O : Oracles) (e : Env) (sp : SplineOracle) (rm : String) (fb : Bool) : List Event :=
  let p143 := stdCorrArr e.n (Nd143_144_CorrF O e) (sp.spline143 rm) (sp.std143 rm)
  let p147 := stdCorrArr e.n (Sm147_Nd144_CorrF O e) (sp.spline147 rm) (sp.std147 rm)
  (if fb then
      [Event.message ("Using fallback reference material: " ++ rm),
       Event.setSetting "ReferenceMaterial" rm]
    else [])
  ++ e.inputChannels.map Event.baselineSub
  ++ [Event.createTS "Nd143_144_Corr" (seriesOf e.n (Nd143_144_CorrF O e)),
      Event.createTS "Sm147_Nd144_Corr" (seriesOf e.n (Sm147_Nd144_CorrF O e))]
  ++ (if p143.2 then [Event.message "Warning: Standard correction for 143Nd/144Nd failed"] else [])
  ++ (if p147.2 then [Event.message "Warning: Standard correction for 147Sm/144Nd failed"] else [])
  ++ [Event.createTS "StdCorr_147Sm_144" p147.1,
      Event.createTS "StdCorr_143Nd_144" p143.1,
      Event.createTS "Nd145_144_Corr" (seriesOf e.n (Nd145_144_CorrF O e)),
      Event.createTS "Nd148_144_Corr" (seriesOf e.n (Nd148_144_CorrF O e)),
      Event.createTS "NdFract" (seriesOf e.n (NdFractF O e)),
      Event.createTS "SmFract" (seriesOf e.n (SmFractF O e)),
      Event.createTS "TotalNd" (seriesOf e.n (TotalNdF e)),
      Event.registerAR "log10(StdCorr_147Sm/144Nd) vs log10(StdCorr_143Nd/144Nd) rho",
      Event.createTS "rho" (List.replicate e.n FP.nan)]
  ++ (match scanRho O e.groups with
      | some v => [Event.setData "rho" (List.replicate e.n v)]
      | none => [])
  ++ [Event.message "Finished!", Event.finished]

/-- `runDRS` of `Sm_Nd_Isotopes_UWA_v4.9.py` as its trace of host
effects. -/
def runDRS_v49 (O : Oracles) (e : Env) (sp : SplineOracle) : List Event :=
  Event.message "Running Sm-Nd Isotopes_UWA_v4.9..." ::
  match resolveRM e.rmName e.rmNames with
  | none => [Event.message "Error: No reference material available.", Event.finished]
  | some (rm, fb) => runCore_v49 O e sp rm fb

/-- The happy-path tail of `runDRS` (v4.8): same pipeline, but the
creation block re-creates `Nd143_144_Corr`, and when `PropagateError`
is set the host propagation routine is invoked for both standardized
series over the non-Baseline selection groups. -/
def runCore_v48 (O : Oracles) (e : Env) (sp : SplineOracle) (rm : String) (fb : Bool) : List Event :=
  let p143 := stdCorrArr e.n (Nd143_144_CorrF O e) (sp.spline143 rm) (sp.std143 rm)
  let p147 := stdCorrArr e.n (Sm147_Nd144_CorrF O e) (sp.spline147 rm) (sp.std147 rm)
  (if fb then
      [Event.message ("Selected reference material not found. Using " ++ rm ++ " instead."),
       Event.setSetting "ReferenceMaterial" rm]
    else [])
  ++ e.inputChannels.map Event.baselineSub
  ++ [Event.createTS "Nd143_144_Corr" (seriesOf e.n (Nd143_144_CorrF O e)),
      Event.createTS "Sm147_Nd144_Corr" (seriesOf e.n (Sm147_Nd144_CorrF O e))]
  ++ (if p143.2 then [Event.message "Warning: Standard correction for 143Nd/144Nd failed"] else [])
  ++ (if p147.2 then [Event.message "Warning: Standard correction for 147Sm/144Nd failed"] else [])
  ++ [Event.createTS "StdCorr_147Sm_144" p147.1,
      Event.createTS "StdCorr_143Nd_144" p143.1,
      Event.createTS "Nd143_144_Corr" (seriesOf e.n (Nd143_144_CorrF O e)),
      Event.createTS "Nd145_144_Corr" (seriesOf e.n (Nd145_144_CorrF O e)),
      Event.createTS "Nd148_144_Corr" (seriesOf e.n (Nd148_144_CorrF O e)),
      Event.createTS "NdFract" (seriesOf e.n (NdFractF O e)),
      Event.createTS "SmFract" (seriesOf e.n (SmFractF O e)),
      Event.createTS "TotalNd" (seriesOf e.n (TotalNdF e))]
  ++ (if e.propErrors then
      [Event.propagate ((e.groups.filter fun g => !g.isBaseline).map SelGroup.name)
          ["StdCorr_143Nd_144"] "Nd143_144_Corr" rm,
       Event.propagate ((e.groups.filter fun g => !g.isBaseline).map SelGroup.name)
          ["StdCorr_147Sm_144"] "Sm147_Nd144_Corr" rm,
       Event.message "Propagated uncertainties calculated."]
    else [])
  ++ [Event.registerAR "log10(StdCorr_147Sm/144Nd) vs log10(StdCorr_143Nd/144Nd) rho",
      Event.createTS "rho" (List.replicate e.n FP.nan)]
  ++ (match scanRho O e.groups with
      | some v => [Event.setData "rho" (List.replicate e.n v)]
      | none => [])
  ++ [Event.message "Finished!", Event.finished]

/-- `runDRS` of `Sm_Nd_Isotopes_UWA_v4.8.py` as its trace of host
effects. -/
def runDRS_v48 (O : Oracles) (e : Env) (sp : SplineOracle) : List Event :=
  Event.message "Running Sm-Nd Isotopes_UWA_v48..." ::
  match resolveRM e.rmName e.rmNames with
  | none => [Event.message "Error: No reference material available. Please define one in your data.", Event.finished]
  | some (rm, fb) => runCore_v48 O e sp rm fb

/-- Name of a series-creation event. -/
def createdName : Event → Option String
  | .createTS nm _ => some nm
  | _ => none

/-- Creation payload for a given series name. -/
def createOf (nm : String) : Event → Option (List FP)
  | .createTS nm2 v => if nm2 = nm then some v else none
  | _ => none

/-- Any store write (creation or in-place overwrite) of a given name. -/
def writeOf (nm : String) : Event → Option (List FP)
  | .createTS nm2 v => if nm2 = nm then some v else none
  | .setData nm2 v => if nm2 = nm then some v else none
  | _ => none

/-- Payload of a propagation call. -/
def propagateOf : Event → Option (List String × List String × String × String)
  | .propagate gs ts src rm => some (gs, ts, src, rm)
  | _ => none

/-- The value a series was first created with. -/
def createdValue (tr : List Event) (nm : String) : Option (List FP) :=
  (tr.filterMap (createOf nm)).head?

/-- The content a series holds at the end of the run: the last write
(creation or `setData`) wins. -/
def lastWrite (tr : List Event) (nm : String) : Option (List FP) :=
  (tr.filterMap (writeOf nm)).getLast?

def isSetSettingE : Event → Bool
  | .setSetting _ _ => true
  | _ => false

def isCreateE : Event → Bool
  | .createTS _ _ => true
  | _ => false

def isSetDataE : Event → Bool
  | .setData _ _ => true
  | _ => false

def isBaseSubE : Event → Bool
  | .baselineSub _ => true
  | _ => false

/-- Witness for C1 at concrete inputs: an environment whose `Sm149` is
identically zero, one tuned so that `Nd144c` is exactly zero, and a
zero spline sample. -/
def oracleOne : Oracles := ⟨fun _ => 1, fun _ _ => 1, fun _ => 1, fun _ => 1⟩

def envZeroSm : Env :=
  { n := 2, rmName := "G_LREE", rmNames := ["G_LREE"], NdTrue := 1,
    Sm147_149 := 1, Sm144_149 := 1, Sm148_149 := 1, propErrors := true,
    Nd143 := fun _ => FP.fin 1, Nd144 := fun _ => FP.fin 1,
    Nd145 := fun _ => FP.fin 1, Nd146 := fun _ => FP.fin 1,
    Nd148 := fun _ => FP.fin 1, Sm147 := fun _ => FP.fin 1,
    Sm149 := fun _ => FP.fin 0, mask := fun _ => FP.fin 1,
    inputChannels := [], groups := [] }

def envZeroNd144c : Env :=
  { envZeroSm with Sm149 := fun _ => FP.fin 1 }

/-- All-zero-mask environment used to witness C8. -/
def envMask0 : Env :=
  { envZeroSm with Sm149 := fun _ => FP.fin 1, mask := fun _ => FP.fin 0 }

/-- Witness for C5: a group whose extraction raises, and a group with a
single valid paired sample. -/
def gErr : SelGroup :=
  { name := "Zircon_1", isBaseline := false, smSel := .error (),
    ndSel := .ok [FP.fin 1], outerRaise := false }

def gOne : SelGroup :=
  { name := "Zircon_2", isBaseline := false, smSel := .ok [FP.fin 1, FP.nan],
    ndSel := .ok [FP.fin 1, FP.fin 1], outerRaise := false }

/-- Scaling by the positive scalar 10, as `10 * sm` broadcasts in numpy. -/
def scale10 (x : FP) : FP := FP.fin 10 * x

/-- Adding 1 to the finite payload (`log10(10 x) = 1 + log10 x`). -/
def shift1 : FP → FP
  | FP.fin r => FP.fin (1 + r)
  | y => y

/-- Oracle whose base-10 log satisfies the log law at the witness
payloads. -/
def oracleLog : Oracles :=
  ⟨fun _ => 0, fun _ _ => 0, fun _ => 0,
    fun q => if q = 10 then 1 else if q = 20 then 1 else 0⟩

/-- The ten series created by the v4.9 happy path, in creation order. -/
def v49Names : List String :=
  ["Nd143_144_Corr", "Sm147_Nd144_Corr", "StdCorr_147Sm_144", "StdCorr_143Nd_144",
   "Nd145_144_Corr", "Nd148_144_Corr", "NdFract", "SmFract", "TotalNd", "rho"]

/-- Collaborator oracle whose every call raises. -/
def spErr : SplineOracle :=
  ⟨fun _ => .error (), fun _ => .error (), fun _ => .error (), fun _ => .error ()⟩

def envFb : Env := { envZeroSm with rmName := "RM_X", rmNames := ["Other", "G_LREE"] }

def envFirst : Env := { envZeroSm with rmName := "RM_X", rmNames := ["First", "Second"] }

def envNoRM : Env := { envZeroSm with rmNames := [] }

def oracleW : Oracles :=
  ⟨fun _ => 0, fun _ _ => 0, fun _ => 1, fun q => if q = 1 then 0 else 2⟩

def gGood : SelGroup :=
  { name := "Std_A", isBaseline := false, smSel := .ok [FP.fin 1, FP.fin 100],
    ndSel := .ok [FP.fin 1, FP.fin 100], outerRaise := false }

def envG1 : Env := { envZeroSm with groups := [gOne] }

def envG2 : Env := { envZeroSm with groups := [gGood] }

@[simp] theorem FP.nan_mul (x : FP) : FP.nan * x = FP.nan := by
  cases x <;> rfl

@[simp] theorem FP.mul_nan (x : FP) : x * FP.nan = FP.nan := by
  cases x <;> rfl

@[simp] theorem FP.nan_div (x : FP) : FP.nan / x = FP.nan := by
  cases x <;> rfl

@[simp] theorem FP.div_nan (x : FP) : x / FP.nan = FP.nan := by
  cases x <;> rfl

@[simp] theorem FP.nan_sub (x : FP) : FP.nan - x = FP.nan := by
  cases x <;> rfl

@[simp] theorem FP.sub_nan (x : FP) : x - FP.nan = FP.nan := by
  cases x <;> rfl

@[simp] theorem FP.nan_add (x : FP) : FP.nan + x = FP.nan := by
  cases x <;> rfl

@[simp] theorem FP.add_nan (x : FP) : x + FP.nan = FP.nan := by
  cases x <;> rfl

@[simp] theorem logF_nan (O : Oracles) : logF O FP.nan = FP.nan := rfl

@[simp] theorem log10F_nan (O : Oracles) : log10F O FP.nan = FP.nan := rfl

theorem powF_nan (O : Oracles) {b : ℚ} (h : b ≠ 1) : powF O b FP.nan = FP.nan := by
  simp [powF, h]

@[simp] theorem whereNE0_zero (v : FP) : whereNE0 (FP.fin 0) v = FP.nan := rfl

@[simp] theorem whereNE0_nan (v : FP) : whereNE0 FP.nan v = v := rfl

/-- Multiplying anything by a (finite) zero mask yields exactly zero or
NaN, never the unmasked value (infinities collapse to NaN as in IEEE). -/
theorem FP.mul_zero_mask (x : FP) : x * FP.fin 0 = FP.fin 0 ∨ x * FP.fin 0 = FP.nan := by
  cases x with
  | fin a => left; show FP.mul _ _ = _; simp [FP.mul]
  | pinf => right; show FP.mul _ _ = _; simp [FP.mul]
  | ninf => right; show FP.mul _ _ = _; simp [FP.mul]
  | nan => right; rfl

theorem FP.fin_zero_mul (x : FP) : FP.fin 0 * x = FP.fin 0 ∨ FP.fin 0 * x = FP.nan := by
  cases x with
  | fin a => left; show FP.mul _ _ = _; simp [FP.mul]
  | pinf => right; show FP.mul _ _ = _; simp [FP.mul]
  | ninf => right; show FP.mul _ _ = _; simp [FP.mul]
  | nan => right; rfl

@[simp] theorem FP.fin_mul_fin (a b : ℚ) : FP.fin a * FP.fin b = FP.fin (a * b) := rfl

theorem FP.div_eq (a b : FP) : a / b = FP.div a b := rfl

theorem FP.fin_div_fin (a b : ℚ) (hb : b ≠ 0) : FP.fin a / FP.fin b = FP.fin (a / b) := by
  show FP.div _ _ = _
  simp [FP.div, hb]

@[simp] theorem FP.fin_sub_fin (a b : ℚ) : FP.fin a - FP.fin b = FP.fin (a - b) := by
  show FP.fin (a + -b) = _
  rw [sub_eq_add_neg]

/-- Once the zero-guarded divisor is NaN, the Nd fractionation factor
and every corrected ratio are NaN at that sample. -/
theorem nan_safe_propagates (O : Oracles) (e : Env) (i : ℕ)
    (hsafe : Nd144cSafeF O e i = FP.nan) :
    NdFractF O e i = FP.nan ∧ Nd143_144_CorrF O e i = FP.nan ∧
    Nd145_144_CorrF O e i = FP.nan ∧ Nd148_144_CorrF O e i = FP.nan ∧
    Sm147_Nd144_CorrF O e i = FP.nan := by
  refine ⟨?_, ?_, ?_, ?_, ?_⟩ <;>
    simp [NdFractF, Nd143_144_CorrF, Nd145_144_CorrF, Nd148_144_CorrF,
      Sm147_Nd144_CorrF, hsafe, whereNE0]

/-- Claim C1: at any sample where a guarded denominator is exactly zero
(`Sm149` in the measured Sm ratio, the interference-corrected `Nd144c`,
or a spline value in the standardization quotient), the corresponding
quotient and every pipeline quantity derived from it at that sample is
NaN — not an infinity, not a silent zero, and (the model being total)
not a raised error. -/
theorem spec_C1 (O : Oracles) (e : Env) (i : ℕ) :
    (e.Sm149 i = FP.fin 0 →
      measSm e i = FP.nan ∧ SmFractF O e i = FP.nan ∧ Sm144F O e i = FP.nan ∧
      Sm148F O e i = FP.nan ∧ Nd144cF O e i = FP.nan ∧ Nd148cF O e i = FP.nan ∧
      Nd144cSafeF O e i = FP.nan ∧ NdFractF O e i = FP.nan ∧
      Nd143_144_CorrF O e i = FP.nan ∧ Nd145_144_CorrF O e i = FP.nan ∧
      Nd148_144_CorrF O e i = FP.nan ∧ Sm147_Nd144_CorrF O e i = FP.nan) ∧
    (Nd144cF O e i = FP.fin 0 →
      Nd144cSafeF O e i = FP.nan ∧ NdFractF O e i = FP.nan ∧
      Nd143_144_CorrF O e i = FP.nan ∧ Nd145_144_CorrF O e i = FP.nan ∧
      Nd148_144_CorrF O e i = FP.nan ∧ Sm147_Nd144_CorrF O e i = FP.nan) ∧
    (∀ (raw : ℕ → FP) (s : List FP) (v : ℚ), s.length = e.n → i < e.n →
      s.getD i FP.nan = FP.fin 0 →
      (stdCorrArr e.n raw (.ok s) (.ok v)).1.getD i FP.nan = FP.nan) := by
  refine ⟨?_, ?_, ?_⟩
  · intro h
    have hm : measSm e i = FP.nan := by simp [measSm, h]
    have hsf : SmFractF O e i = FP.nan := by simp [SmFractF, hm]
    have h144 : Sm144F O e i = FP.nan := by
      rw [Sm144F, h, hsf, powF_nan O (by norm_num : ((148.9172 : ℚ) / 143.912) ≠ 1)]
      simp
    have h148 : Sm148F O e i = FP.nan := by
      rw [Sm148F, h, hsf, powF_nan O (by norm_num : ((148.9172 : ℚ) / 147.9148) ≠ 1)]
      simp
    have hc : Nd144cF O e i = FP.nan := by rw [Nd144cF, h144]; simp
    have hc8 : Nd148cF O e i = FP.nan := by rw [Nd148cF, h148]; simp
    have hsafe : Nd144cSafeF O e i = FP.nan := by rw [Nd144cSafeF, hc]; simp [whereNE0]
    obtain ⟨h1, h2, h3, h4, h5⟩ := nan_safe_propagates O e i hsafe
    exact ⟨hm, hsf, h144, h148, hc, hc8, hsafe, h1, h2, h3, h4, h5⟩
  · intro h
    have hsafe : Nd144cSafeF O e i = FP.nan := by rw [Nd144cSafeF, h]; simp [whereNE0]
    obtain ⟨h1, h2, h3, h4, h5⟩ := nan_safe_propagates O e i hsafe
    exact ⟨hsafe, h1, h2, h3, h4, h5⟩
  · intro raw s v hlen hi hz
    rw [List.getD_eq_getElem?_getD] at hz
    simp only [stdCorrArr, hlen, if_pos rfl]
    simp [List.getD_eq_getElem?_getD, List.getElem?_map, List.getElem?_range hi, hz]

theorem spec_C1_witness :
    (SmFractF oracleOne envZeroSm 0 = FP.nan ∧ Nd143_144_CorrF oracleOne envZeroSm 0 = FP.nan) ∧
    (Nd144cSafeF oracleOne envZeroNd144c 0 = FP.nan ∧
      Sm147_Nd144_CorrF oracleOne envZeroNd144c 0 = FP.nan) ∧
    (stdCorrArr 2 (fun _ => FP.fin 1) (.ok [FP.fin 0, FP.fin 1]) (.ok 1)).1.getD 0 FP.nan = FP.nan := by
  have h1 := (spec_C1 oracleOne envZeroSm 0).1 rfl
  have hc : Nd144cF oracleOne envZeroNd144c 0 = FP.fin 0 := by
    have hp : (0 : ℚ) < 146.9149 / 148.9172 := by norm_num
    have hb : ((148.9172 : ℚ) / 143.912) ≠ 1 := by norm_num
    have h10 : ¬ ((1 : ℚ) < 0) := by norm_num
    simp [Nd144cF, Sm144F, SmFractF, measSm, whereNE0, logF, powF, oracleOne,
      envZeroNd144c, envZeroSm, FP.div_eq, FP.div, hp.ne', not_lt.mpr hp.le, hb, h10]
  have h2 := (spec_C1 oracleOne envZeroNd144c 0).2.1 hc
  have h3 := (spec_C1 oracleOne envZeroNd144c 0).2.2 (fun _ => FP.fin 1)
    [FP.fin 0, FP.fin 1] 1 rfl (by decide) rfl
  exact ⟨⟨h1.2.1, h1.2.2.2.2.2.2.2.2.1⟩, ⟨h2.1, h2.2.2.2.2.2⟩, h3⟩

/-- Claim C8: at any sample where the mask is zero, every masked
product of the correction engine — the fractionation factors, the
interfering Sm signals, the interference-corrected Nd signals, all four
corrected ratios and the total-Nd estimate — is exactly zero or NaN,
never an unmasked raw value. -/
theorem spec_C8 (O : Oracles) (e : Env) (i : ℕ) (h : e.mask i = FP.fin 0) :
    (SmFractF O e i = FP.fin 0 ∨ SmFractF O e i = FP.nan) ∧
    (Sm144F O e i = FP.fin 0 ∨ Sm144F O e i = FP.nan) ∧
    (Sm148F O e i = FP.fin 0 ∨ Sm148F O e i = FP.nan) ∧
    (Nd144cF O e i = FP.fin 0 ∨ Nd144cF O e i = FP.nan) ∧
    (Nd148cF O e i = FP.fin 0 ∨ Nd148cF O e i = FP.nan) ∧
    (NdFractF O e i = FP.fin 0 ∨ NdFractF O e i = FP.nan) ∧
    (Nd143_144_CorrF O e i = FP.fin 0 ∨ Nd143_144_CorrF O e i = FP.nan) ∧
    (Nd145_144_CorrF O e i = FP.fin 0 ∨ Nd145_144_CorrF O e i = FP.nan) ∧
    (Nd148_144_CorrF O e i = FP.fin 0 ∨ Nd148_144_CorrF O e i = FP.nan) ∧
    (Sm147_Nd144_CorrF O e i = FP.fin 0 ∨ Sm147_Nd144_CorrF O e i = FP.nan) ∧
    (TotalNdF e i = FP.fin 0 ∨ TotalNdF e i = FP.nan) := by
  refine ⟨?_, ?_, ?_, ?_, ?_, ?_, ?_, ?_, ?_, ?_, ?_⟩
  · simp only [SmFractF, h]; exact FP.mul_zero_mask _
  · simp only [Sm144F, h]; exact FP.mul_zero_mask _
  · simp only [Sm148F, h]; exact FP.mul_zero_mask _
  · simp only [Nd144cF, h]; exact FP.mul_zero_mask _
  · simp only [Nd148cF, h]; exact FP.mul_zero_mask _
  · simp only [NdFractF, h]; exact FP.mul_zero_mask _
  · simp only [Nd143_144_CorrF, h]; exact FP.mul_zero_mask _
  · simp only [Nd145_144_CorrF, h]; exact FP.mul_zero_mask _
  · simp only [Nd148_144_CorrF, h]; exact FP.mul_zero_mask _
  · simp only [Sm147_Nd144_CorrF, h]; exact FP.mul_zero_mask _
  · simp only [TotalNdF, h]; exact FP.mul_zero_mask _

theorem spec_C8_witness :
    (SmFractF oracleOne envMask0 0 = FP.fin 0 ∨ SmFractF oracleOne envMask0 0 = FP.nan) ∧
    (Sm144F oracleOne envMask0 0 = FP.fin 0 ∨ Sm144F oracleOne envMask0 0 = FP.nan) ∧
    (Sm148F oracleOne envMask0 0 = FP.fin 0 ∨ Sm148F oracleOne envMask0 0 = FP.nan) ∧
    (Nd144cF oracleOne envMask0 0 = FP.fin 0 ∨ Nd144cF oracleOne envMask0 0 = FP.nan) ∧
    (Nd148cF oracleOne envMask0 0 = FP.fin 0 ∨ Nd148cF oracleOne envMask0 0 = FP.nan) ∧
    (NdFractF oracleOne envMask0 0 = FP.fin 0 ∨ NdFractF oracleOne envMask0 0 = FP.nan) ∧
    (Nd143_144_CorrF oracleOne envMask0 0 = FP.fin 0 ∨ Nd143_144_CorrF oracleOne envMask0 0 = FP.nan) ∧
    (Nd145_144_CorrF oracleOne envMask0 0 = FP.fin 0 ∨ Nd145_144_CorrF oracleOne envMask0 0 = FP.nan) ∧
    (Nd148_144_CorrF oracleOne envMask0 0 = FP.fin 0 ∨ Nd148_144_CorrF oracleOne envMask0 0 = FP.nan) ∧
    (Sm147_Nd144_CorrF oracleOne envMask0 0 = FP.fin 0 ∨ Sm147_Nd144_CorrF oracleOne envMask0 0 = FP.nan) ∧
    (TotalNdF envMask0 0 = FP.fin 0 ∨ TotalNdF envMask0 0 = FP.nan) :=
  spec_C8 oracleOne envMask0 0 rfl

/-- `np.corrcoef` on at most one sample degrades to NaN (0/0 variance). -/
theorem corrcoefF_len_le1 (O : Oracles) (xs ys : List FP) (h : xs.length ≤ 1) :
    corrcoefF O xs ys = FP.nan := by
  unfold corrcoefF
  split
  · unfold corrcoefQ
    rw [if_pos]
    left
    simpa using h
  · rfl

/-- Claim C5: the rho diagnostic keeps exactly the paired samples where
both standardized values are valid; extraction failure (or the shape
error a length mismatch raises) is caught, logged with the selection's
name, and degrades to NaN; no valid sample gives NaN; and at most one
valid paired sample gives NaN, never a runtime error (the model is a
total function). -/
theorem spec_C5 (O : Oracles) (g : SelGroup) :
    ((g.smSel = .error () ∨ g.ndSel = .error ()) →
      rho_corr_147Sm_143Nd O g = (FP.nan, [rhoErrMsg g.name])) ∧
    (∀ sm nd, g.smSel = .ok sm → g.ndSel = .ok nd →
      (sm.length ≠ nd.length → rho_corr_147Sm_143Nd O g = (FP.nan, [rhoErrMsg g.name])) ∧
      (sm.length = nd.length → (sm.zip nd).any validPair = true →
        rhoValue O g = corrcoefF O
          (((sm.zip nd).filter validPair).map fun p => log10F O p.1)
          (((sm.zip nd).filter validPair).map fun p => log10F O p.2)) ∧
      ((sm.zip nd).countP validPair = 0 → rhoValue O g = FP.nan) ∧
      ((sm.zip nd).countP validPair ≤ 1 → rhoValue O g = FP.nan)) := by
  constructor
  · intro h
    rcases hsm : g.smSel with u | sm
    · simp [rho_corr_147Sm_143Nd, hsm]
    · rcases hnd : g.ndSel with u | nd
      · simp [rho_corr_147Sm_143Nd, hsm, hnd]
      · rw [hsm, hnd] at h
        rcases h with h | h <;> exact absurd h (by simp)
  · intro sm nd hsm hnd
    refine ⟨?_, ?_, ?_, ?_⟩
    · intro hne
      simp [rho_corr_147Sm_143Nd, hsm, hnd, hne]
    · intro hlen hany
      simp [rhoValue, rho_corr_147Sm_143Nd, hsm, hnd, hlen, rhoFromData, hany]
    · intro hcnt
      have hv : (sm.zip nd).any validPair = false := by
        rw [List.any_eq_false]
        intro p hp
        exact (List.countP_eq_zero.mp hcnt) p hp
      simp only [rhoValue, rho_corr_147Sm_143Nd, hsm, hnd]
      split
      · simp [rhoFromData, hv]
      · rfl
    · intro hcnt
      simp only [rhoValue, rho_corr_147Sm_143Nd, hsm, hnd]
      split
      · simp only [rhoFromData]
        split
        · apply corrcoefF_len_le1
          simpa [List.countP_eq_length_filter] using hcnt
        · rfl
      · rfl

theorem spec_C5_witness :
    rho_corr_147Sm_143Nd oracleOne gErr = (FP.nan, [rhoErrMsg "Zircon_1"]) ∧
    rhoValue oracleOne gOne = FP.nan := by
  constructor
  · exact (spec_C5 oracleOne gErr).1 (Or.inl rfl)
  · exact (((spec_C5 oracleOne gOne).2 [FP.fin 1, FP.nan] [FP.fin 1, FP.fin 1]
      rfl rfl).2.2.2) (by decide)

theorem FP.mul_def (a b : FP) : a * b = FP.mul a b := rfl

theorem scale10_pinf : scale10 FP.pinf = FP.pinf := by
  rw [scale10, FP.mul_def]
  simp only [FP.mul]
  norm_num

theorem scale10_ninf : scale10 FP.ninf = FP.ninf := by
  rw [scale10, FP.mul_def]
  simp only [FP.mul]
  norm_num

theorem scale10_nan : scale10 FP.nan = FP.nan := rfl

theorem scale10_fin (q : ℚ) : scale10 (FP.fin q) = FP.fin (10 * q) := rfl

/-- Validity is invariant under scaling by 10. -/
theorem validF_scale (x : FP) : validF (scale10 x) = validF x := by
  cases x with
  | fin q =>
      rw [scale10_fin]
      simp only [validF, FP.isNan, FP.gt0, Bool.not_false, Bool.true_and]
      rw [decide_eq_decide]
      constructor <;> intro h <;> linarith
  | pinf => rw [scale10_pinf]
  | ninf => rw [scale10_ninf]
  | nan => rw [scale10_nan]

theorem isFinite_scale (x : FP) : FP.isFinite (scale10 x) = FP.isFinite x := by
  cases x with
  | fin q => rw [scale10_fin]; rfl
  | pinf => rw [scale10_pinf]
  | ninf => rw [scale10_ninf]
  | nan => rw [scale10_nan]

theorem isFinite_shift1 (x : FP) : FP.isFinite (shift1 x) = FP.isFinite x := by
  cases x <;> rfl

/-- On a valid entry, the base-10 log of the 10-scaled value is the
shifted base-10 log, provided the oracle satisfies the log law at the
entry's payload. -/
theorem log10F_scale (O : Oracles) (x : FP) (hx : validF x = true)
    (hq : ∀ q : ℚ, 0 < q → x = FP.fin q → O.log10Q (10 * q) = 1 + O.log10Q q) :
    log10F O (scale10 x) = shift1 (log10F O x) := by
  cases x with
  | fin q =>
      have hq0 : 0 < q := by simpa [validF, FP.isNan, FP.gt0] using hx
      have h10q : (0 : ℚ) < 10 * q := by linarith
      rw [scale10_fin]
      simp [log10F, not_lt.mpr hq0.le, hq0.ne', not_lt.mpr h10q.le, h10q.ne', shift1,
        hq q hq0 rfl]
  | pinf => rw [scale10_pinf]; rfl
  | ninf => exact absurd hx (by simp [validF, FP.gt0, FP.isNan])
  | nan => exact absurd hx (by simp [validF, FP.isNan])

theorem sum_map_add_const (c : ℚ) (xs : List ℚ) :
    (xs.map fun x => c + x).sum = xs.length * c + xs.sum := by
  induction xs with
  | nil => simp
  | cons a l ih =>
      simp only [List.map_cons, List.sum_cons, ih, List.length_cons]
      push_cast
      ring

theorem meanQ_shift (c : ℚ) (xs : List ℚ) (h : xs ≠ []) :
    meanQ (xs.map fun x => c + x) = c + meanQ xs := by
  have hn : (xs.length : ℚ) ≠ 0 := by
    exact_mod_cast Nat.cast_ne_zero.mpr (by simpa using List.length_pos.mpr h |>.ne')
  unfold meanQ
  rw [List.length_map, sum_map_add_const]
  field_simp
  ring

theorem centered_shift (c : ℚ) (xs : List ℚ) :
    centered (xs.map fun x => c + x) = centered xs := by
  rcases eq_or_ne xs [] with rfl | h
  · simp [centered]
  · unfold centered
    rw [meanQ_shift c xs h, List.map_map]
    apply List.map_congr_left
    intro a _
    simp only [Function.comp_apply]
    ring

theorem covQ_shift (c : ℚ) (xs ys : List ℚ) :
    covQ (xs.map fun x => c + x) (ys.map fun y => c + y) = covQ xs ys := by
  unfold covQ
  rw [centered_shift, centered_shift, List.length_map]

theorem varQ_shift (c : ℚ) (xs : List ℚ) :
    varQ (xs.map fun x => c + x) = varQ xs := by
  unfold varQ
  rw [centered_shift, List.length_map]

/-- Pearson correlation is invariant under a common shift of both data
sets. -/
theorem corrcoefQ_shift (O : Oracles) (c : ℚ) (xs ys : List ℚ) :
    corrcoefQ O (xs.map fun x => c + x) (ys.map fun y => c + y) = corrcoefQ O xs ys := by
  unfold corrcoefQ
  rw [List.length_map, List.length_map, varQ_shift, varQ_shift, covQ_shift]

/-- `np.corrcoef` is invariant under shifting every sample by 1. -/
theorem corrcoefF_shift (O : Oracles) (xs ys : List FP) :
    corrcoefF O (xs.map shift1) (ys.map shift1) = corrcoefF O xs ys := by
  have hf : ∀ l : List FP, (l.map shift1).all FP.isFinite = l.all FP.isFinite := by
    intro l
    rw [List.all_map]
    congr 1
    funext x
    exact isFinite_shift1 x
  have hq : ∀ l : List FP, l.all FP.isFinite = true →
      (l.map shift1).map FP.toQ = (l.map FP.toQ).map fun q => (1 : ℚ) + q := by
    intro l hl
    rw [List.map_map, List.map_map]
    apply List.map_congr_left
    intro x hx
    have hfin : FP.isFinite x = true := List.all_eq_true.mp hl x hx
    cases x with
    | fin r => rfl
    | pinf => exact absurd hfin (by simp [FP.isFinite])
    | ninf => exact absurd hfin (by simp [FP.isFinite])
    | nan => exact absurd hfin (by simp [FP.isFinite])
  unfold corrcoefF
  rw [hf, hf]
  split
  · rename_i hall
    obtain ⟨hx, hy⟩ : xs.all FP.isFinite = true ∧ ys.all FP.isFinite = true := by
      simpa using hall
    rw [hq xs hx, hq ys hy, corrcoefQ_shift]
  · rfl

/-- Claim C6: the rho diagnostic is invariant under elementwise scaling
of both standardized arrays by 10, whenever the oracle base-10 log
satisfies the log law at the (positive) sample payloads. -/
theorem spec_C6 (O : Oracles) (sm nd : List FP)
    (hlog : ∀ q : ℚ, 0 < q → (FP.fin q ∈ sm ∨ FP.fin q ∈ nd) →
      O.log10Q (10 * q) = 1 + O.log10Q q) :
    rhoFromData O (sm.map scale10) (nd.map scale10) = rhoFromData O sm nd := by
  have hpred : (fun p : FP × FP => validPair (Prod.map scale10 scale10 p)) = validPair := by
    funext p
    simp [validPair, Prod.map, validF_scale]
  unfold rhoFromData
  rw [List.zip_map]
  have hany : (List.map (Prod.map scale10 scale10) (sm.zip nd)).any validPair =
      (sm.zip nd).any validPair := by
    rw [List.any_map]
    congr 1
  rw [hany]
  by_cases h : (sm.zip nd).any validPair = true
  · rw [if_pos h, if_pos h]
    have hfilt : List.filter validPair (List.map (Prod.map scale10 scale10) (sm.zip nd)) =
        List.map (Prod.map scale10 scale10) ((sm.zip nd).filter validPair) := by
      rw [List.filter_map]
      congr 1
      apply List.filter_congr
      intro p hp
      simp [Function.comp, validPair, Prod.map, validF_scale]
    rw [hfilt, List.map_map, List.map_map]
    have hmem : ∀ p ∈ (sm.zip nd).filter validPair,
        validPair p = true ∧ p.1 ∈ sm ∧ p.2 ∈ nd := by
      intro p hp
      obtain ⟨hmemz, hval⟩ := List.mem_filter.mp hp
      exact ⟨hval, (List.of_mem_zip hmemz).1, (List.of_mem_zip hmemz).2⟩
    have h1 : ((sm.zip nd).filter validPair).map ((fun p : FP × FP => log10F O p.1) ∘ Prod.map scale10 scale10) =
        (((sm.zip nd).filter validPair).map fun p => log10F O p.1).map shift1 := by
      rw [List.map_map]
      apply List.map_congr_left
      intro p hp
      obtain ⟨hval, hp1, _⟩ := hmem p hp
      have hv1 : validF p.1 = true := by
        have := hval
        simp only [validPair, Bool.and_eq_true] at this
        exact this.1
      exact log10F_scale O p.1 hv1 fun q hq0 hpq => hlog q hq0 (Or.inl (hpq ▸ hp1))
    have h2 : ((sm.zip nd).filter validPair).map ((fun p : FP × FP => log10F O p.2) ∘ Prod.map scale10 scale10) =
        (((sm.zip nd).filter validPair).map fun p => log10F O p.2).map shift1 := by
      rw [List.map_map]
      apply List.map_congr_left
      intro p hp
      obtain ⟨hval, _, hp2⟩ := hmem p hp
      have hv2 : validF p.2 = true := by
        have := hval
        simp only [validPair, Bool.and_eq_true] at this
        exact this.2
      exact log10F_scale O p.2 hv2 fun q hq0 hpq => hlog q hq0 (Or.inr (hpq ▸ hp2))
    rw [h1, h2, corrcoefF_shift]
  · rw [if_neg h, if_neg h]

theorem spec_C6_witness :
    rhoFromData oracleLog ([FP.fin 1, FP.fin 2].map scale10)
        ([FP.fin 1, FP.fin 2].map scale10) =
      rhoFromData oracleLog [FP.fin 1, FP.fin 2] [FP.fin 1, FP.fin 2] := by
  apply spec_C6
  intro q hq0 hmem
  have hq : q = 1 ∨ q = 2 := by
    rcases hmem with hm | hm <;> simpa using hm
  rcases hq with rfl | rfl <;> norm_num [oracleLog]

theorem resolveRM_some (rmName : String) (rmNames : List String) (h : rmNames ≠ []) :
    ∃ rm fb, resolveRM rmName rmNames = some (rm, fb) := by
  by_cases h1 : rmName ∈ rmNames
  · exact ⟨rmName, false, by simp [resolveRM, h1]⟩
  · by_cases h2 : "G_LREE" ∈ rmNames
    · exact ⟨"G_LREE", true, by simp [resolveRM, h1, h2]⟩
    · cases rmNames with
      | nil => exact absurd rfl h
      | cons x xs => exact ⟨x, true, by simp [resolveRM, h1, h2]⟩

theorem v49_creations (O : Oracles) (e : Env) (sp : SplineOracle) (rm : String) (fb : Bool) :
    (runCore_v49 O e sp rm fb).filterMap createdName = v49Names := by
  unfold runCore_v49 v49Names
  cases hs : scanRho O e.groups <;>
    simp [List.filterMap_append, List.filterMap_map, createdName,
      apply_ite (List.filterMap createdName), List.filterMap_cons, Function.comp]

/-- Claim C7: on any run that passes reference-material resolution,
`runDRS` (v4.9) creates exactly the ten output series, in this order,
with no other series creations interleaved. -/
theorem spec_C7 (O : Oracles) (e : Env) (sp : SplineOracle) (h : e.rmNames ≠ []) :
    (runDRS_v49 O e sp).filterMap createdName =
    ["Nd143_144_Corr", "Sm147_Nd144_Corr", "StdCorr_147Sm_144", "StdCorr_143Nd_144",
     "Nd145_144_Corr", "Nd148_144_Corr", "NdFract", "SmFract", "TotalNd", "rho"] := by
  obtain ⟨rm, fb, hres⟩ := resolveRM_some e.rmName e.rmNames h
  unfold runDRS_v49
  rw [hres]
  rw [List.filterMap_cons]
  simpa [createdName] using v49_creations O e sp rm fb

theorem spec_C7_witness :
    (runDRS_v49 oracleOne envZeroSm spErr).filterMap createdName =
    ["Nd143_144_Corr", "Sm147_Nd144_Corr", "StdCorr_147Sm_144", "StdCorr_143Nd_144",
     "Nd145_144_Corr", "Nd148_144_Corr", "NdFract", "SmFract", "TotalNd", "rho"] :=
  spec_C7 oracleOne envZeroSm spErr (by decide)

theorem v49_no_setSetting (O : Oracles) (e : Env) (sp : SplineOracle) (rm : String) :
    (runCore_v49 O e sp rm false).countP isSetSettingE = 0 := by
  unfold runCore_v49
  cases hs : scanRho O e.groups <;>
    simp [List.countP_append, List.countP_cons, List.countP_map, isSetSettingE,
      Function.comp, List.countP_eq_zero]

theorem v49_setSetting_mem (O : Oracles) (e : Env) (sp : SplineOracle) (rm : String) :
    Event.setSetting "ReferenceMaterial" rm ∈ runCore_v49 O e sp rm true := by
  unfold runCore_v49
  cases hs : scanRho O e.groups <;> simp [List.mem_append]

/-- Claim C3: reference-material resolution keeps an available
configured name without writing settings; otherwise falls back to
"G_LREE" if available, else to the first available name, persisting the
fallback into settings; and with no reference-material group at all the
run emits the error message, signals completion, and creates zero
output series. -/
theorem spec_C3 (O : Oracles) (e : Env) (sp : SplineOracle) :
    (e.rmName ∈ e.rmNames →
      resolveRM e.rmName e.rmNames = some (e.rmName, false) ∧
      (runDRS_v49 O e sp).countP isSetSettingE = 0) ∧
    (e.rmName ∉ e.rmNames → "G_LREE" ∈ e.rmNames →
      resolveRM e.rmName e.rmNames = some ("G_LREE", true) ∧
      Event.setSetting "ReferenceMaterial" "G_LREE" ∈ runDRS_v49 O e sp) ∧
    (∀ x xs, e.rmName ∉ e.rmNames → "G_LREE" ∉ e.rmNames → e.rmNames = x :: xs →
      resolveRM e.rmName e.rmNames = some (x, true) ∧
      Event.setSetting "ReferenceMaterial" x ∈ runDRS_v49 O e sp) ∧
    (e.rmNames = [] →
      runDRS_v49 O e sp =
        [Event.message "Running Sm-Nd Isotopes_UWA_v4.9...",
         Event.message "Error: No reference material available.", Event.finished] ∧
      (runDRS_v49 O e sp).filterMap createdName = []) := by
  refine ⟨?_, ?_, ?_, ?_⟩
  · intro h
    have hres : resolveRM e.rmName e.rmNames = some (e.rmName, false) := by
      simp [resolveRM, h]
    refine ⟨hres, ?_⟩
    unfold runDRS_v49
    rw [hres]
    rw [List.countP_cons_of_neg _ _ (by simp [isSetSettingE])]
    exact v49_no_setSetting O e sp e.rmName
  · intro h1 h2
    have hres : resolveRM e.rmName e.rmNames = some ("G_LREE", true) := by
      simp [resolveRM, h1, h2]
    refine ⟨hres, ?_⟩
    unfold runDRS_v49
    rw [hres]
    exact List.mem_cons_of_mem _ (v49_setSetting_mem O e sp "G_LREE")
  · intro x xs h1 h2 hxs
    have hres : resolveRM e.rmName e.rmNames = some (x, true) := by
      rw [hxs] at h1 h2 ⊢
      simp [resolveRM, h1, h2]
    refine ⟨hres, ?_⟩
    unfold runDRS_v49
    rw [hres]
    exact List.mem_cons_of_mem _ (v49_setSetting_mem O e sp x)
  · intro h
    have hres : resolveRM e.rmName e.rmNames = none := by
      simp [resolveRM, h]
    constructor
    · unfold runDRS_v49
      rw [hres]
    · unfold runDRS_v49
      rw [hres]
      simp [createdName]

theorem spec_C3_witness :
    (runDRS_v49 oracleOne envZeroSm spErr).countP isSetSettingE = 0 ∧
    Event.setSetting "ReferenceMaterial" "G_LREE" ∈ runDRS_v49 oracleOne envFb spErr ∧
    Event.setSetting "ReferenceMaterial" "First" ∈ runDRS_v49 oracleOne envFirst spErr ∧
    (runDRS_v49 oracleOne envNoRM spErr).filterMap createdName = [] :=
  ⟨((spec_C3 oracleOne envZeroSm spErr).1 (by decide)).2,
   ((spec_C3 oracleOne envFb spErr).2.1 (by decide) (by decide)).2,
   ((spec_C3 oracleOne envFirst spErr).2.2.1 "First" ["Second"] (by decide) (by decide) rfl).2,
   ((spec_C3 oracleOne envNoRM spErr).2.2.2 rfl).2⟩

theorem stdCorrArr_snd (n : ℕ) (raw : ℕ → FP) (spr : Except Unit (List FP))
    (svr : Except Unit ℚ) : (stdCorrArr n raw spr svr).2 = stdFailed n spr svr := by
  unfold stdCorrArr stdFailed
  rcases spr with u | s <;> rcases svr with u2 | v <;> try rfl
  by_cases hl : s.length = n <;> simp [hl]

theorem stdCorrArr_failed (n : ℕ) (raw : ℕ → FP) (spr : Except Unit (List FP))
    (svr : Except Unit ℚ) (h : stdFailed n spr svr = true) :
    (stdCorrArr n raw spr svr).1 = List.replicate n FP.nan := by
  unfold stdCorrArr
  unfold stdFailed at h
  rcases spr with u | s <;> rcases svr with u2 | v <;> try rfl
  have hl : s.length ≠ n := by simpa using h
  simp [hl]

theorem v49_value_143 (O : Oracles) (e : Env) (sp : SplineOracle) (rm : String) (fb : Bool)
    (hres : resolveRM e.rmName e.rmNames = some (rm, fb)) :
    createdValue (runDRS_v49 O e sp) "StdCorr_143Nd_144" =
      some (stdCorrArr e.n (Nd143_144_CorrF O e) (sp.spline143 rm) (sp.std143 rm)).1 := by
  unfold runDRS_v49
  rw [hres]
  unfold createdValue
  cases hs : scanRho O e.groups <;>
    simp [runCore_v49, List.filterMap_append, List.filterMap_map, List.filterMap_cons,
      createOf, apply_ite (List.filterMap (createOf "StdCorr_143Nd_144")), Function.comp]

theorem v49_value_147 (O : Oracles) (e : Env) (sp : SplineOracle) (rm : String) (fb : Bool)
    (hres : resolveRM e.rmName e.rmNames = some (rm, fb)) :
    createdValue (runDRS_v49 O e sp) "StdCorr_147Sm_144" =
      some (stdCorrArr e.n (Sm147_Nd144_CorrF O e) (sp.spline147 rm) (sp.std147 rm)).1 := by
  unfold runDRS_v49
  rw [hres]
  unfold createdValue
  cases hs : scanRho O e.groups <;>
    simp [runCore_v49, List.filterMap_append, List.filterMap_map, List.filterMap_cons,
      createOf, apply_ite (List.filterMap (createOf "StdCorr_147Sm_144")), Function.comp]

theorem v49_warn143_mem (O : Oracles) (e : Env) (sp : SplineOracle) (rm : String) (fb : Bool)
    (hfail : stdFailed e.n (sp.spline143 rm) (sp.std143 rm) = true) :
    Event.message "Warning: Standard correction for 143Nd/144Nd failed" ∈
      runCore_v49 O e sp rm fb := by
  cases hs : scanRho O e.groups <;>
    simp [runCore_v49, List.mem_append, stdCorrArr_snd, hfail]

theorem v49_warn147_mem (O : Oracles) (e : Env) (sp : SplineOracle) (rm : String) (fb : Bool)
    (hfail : stdFailed e.n (sp.spline147 rm) (sp.std147 rm) = true) :
    Event.message "Warning: Standard correction for 147Sm/144Nd failed" ∈
      runCore_v49 O e sp rm fb := by
  cases hs : scanRho O e.groups <;>
    simp [runCore_v49, List.mem_append, stdCorrArr_snd, hfail]

/-- Claim C4: for each standardized ratio independently, any failure of
the spline/accepted-value collaborator publishes that ratio as an
all-NaN array of the run's length and surfaces a warning, while the run
still creates every output series; the published value of each ratio is
a function of its own collaborator calls only (swapping the other
ratio's collaborator leaves it unchanged). -/
theorem spec_C4 (O : Oracles) (e : Env) (sp : SplineOracle) (h : e.rmNames ≠ []) :
    ∀ rm fb, resolveRM e.rmName e.rmNames = some (rm, fb) →
    (stdFailed e.n (sp.spline143 rm) (sp.std143 rm) = true →
      createdValue (runDRS_v49 O e sp) "StdCorr_143Nd_144" = some (List.replicate e.n FP.nan) ∧
      Event.message "Warning: Standard correction for 143Nd/144Nd failed" ∈ runDRS_v49 O e sp) ∧
    (stdFailed e.n (sp.spline147 rm) (sp.std147 rm) = true →
      createdValue (runDRS_v49 O e sp) "StdCorr_147Sm_144" = some (List.replicate e.n FP.nan) ∧
      Event.message "Warning: Standard correction for 147Sm/144Nd failed" ∈ runDRS_v49 O e sp) ∧
    (runDRS_v49 O e sp).filterMap createdName = v49Names ∧
    createdValue (runDRS_v49 O e sp) "StdCorr_143Nd_144" =
      some (stdCorrArr e.n (Nd143_144_CorrF O e) (sp.spline143 rm) (sp.std143 rm)).1 ∧
    createdValue (runDRS_v49 O e sp) "StdCorr_147Sm_144" =
      some (stdCorrArr e.n (Sm147_Nd144_CorrF O e) (sp.spline147 rm) (sp.std147 rm)).1 ∧
    (∀ sp2 : SplineOracle, sp2.spline147 = sp.spline147 → sp2.std147 = sp.std147 →
      createdValue (runDRS_v49 O e sp2) "StdCorr_147Sm_144" =
        createdValue (runDRS_v49 O e sp) "StdCorr_147Sm_144") := by
  intro rm fb hres
  refine ⟨?_, ?_, ?_, ?_, ?_, ?_⟩
  · intro hfail
    refine ⟨?_, ?_⟩
    · rw [v49_value_143 O e sp rm fb hres, stdCorrArr_failed _ _ _ _ hfail]
    · unfold runDRS_v49
      rw [hres]
      exact List.mem_cons_of_mem _ (v49_warn143_mem O e sp rm fb hfail)
  · intro hfail
    refine ⟨?_, ?_⟩
    · rw [v49_value_147 O e sp rm fb hres, stdCorrArr_failed _ _ _ _ hfail]
    · unfold runDRS_v49
      rw [hres]
      exact List.mem_cons_of_mem _ (v49_warn147_mem O e sp rm fb hfail)
  · obtain ⟨rm2, fb2, hres2⟩ := resolveRM_some e.rmName e.rmNames h
    unfold runDRS_v49
    rw [hres2]
    rw [List.filterMap_cons]
    simpa [createdName] using v49_creations O e sp rm2 fb2
  · exact v49_value_143 O e sp rm fb hres
  · exact v49_value_147 O e sp rm fb hres
  · intro sp2 hsp hstd
    rw [v49_value_147 O e sp2 rm fb hres, v49_value_147 O e sp rm fb hres, hsp, hstd]

theorem spec_C4_witness :
    createdValue (runDRS_v49 oracleOne envZeroSm spErr) "StdCorr_143Nd_144" =
      some (List.replicate envZeroSm.n FP.nan) ∧
    Event.message "Warning: Standard correction for 147Sm/144Nd failed" ∈
      runDRS_v49 oracleOne envZeroSm spErr ∧
    (runDRS_v49 oracleOne envZeroSm spErr).filterMap createdName = v49Names := by
  have h := spec_C4 oracleOne envZeroSm spErr (by decide) "G_LREE" false (by decide)
  exact ⟨(h.1 rfl).1, (h.2.1 rfl).2, h.2.2.1⟩

theorem scanRho_isNan_false (O : Oracles) (gs : List SelGroup) (v : FP)
    (h : scanRho O gs = some v) : FP.isNan v = false := by
  induction gs with
  | nil => cases h
  | cons g gs ih =>
      unfold scanRho at h
      split_ifs at h with h1 h2 h3
      · exact ih h
      · exact ih h
      · exact ih h
      · cases h
        exact Bool.not_eq_true _ ▸ eq_false_of_ne_true h3

theorem isSetDataE_shape (ev : Event) (h : isSetDataE ev = true) :
    ∃ nm v, ev = Event.setData nm v := by
  cases ev <;> simp [isSetDataE] at h ⊢

/-- Every in-place overwrite the run ever performs is the single
wholesale non-NaN constant write to the "rho" series. -/
theorem v49_setData_shape (O : Oracles) (e : Env) (sp : SplineOracle) (rm : String) (fb : Bool) :
    ∀ ev ∈ runCore_v49 O e sp rm fb, isSetDataE ev = true →
      ∃ v, FP.isNan v = false ∧ ev = Event.setData "rho" (List.replicate e.n v) := by
  intro ev hev hsd
  obtain ⟨nm, vv, rfl⟩ := isSetDataE_shape ev hsd
  unfold runCore_v49 at hev
  cases hscan : scanRho O e.groups with
  | none =>
      rw [hscan] at hev
      simp at hev
  | some w =>
      rw [hscan] at hev
      simp at hev
      obtain ⟨rfl, rfl⟩ := hev
      exact ⟨w, scanRho_isNan_false O e.groups w hscan, rfl⟩

/-- Claim C9: once a series is created the run never writes it again —
the only in-place overwrite ever performed is the single wholesale
non-NaN constant write to "rho", the "rho" series is created exactly
once (filled with NaN) before that overwrite, and no series is created
twice. -/
theorem spec_C9 (O : Oracles) (e : Env) (sp : SplineOracle) (h : e.rmNames ≠ []) :
    (∀ ev ∈ runDRS_v49 O e sp, isSetDataE ev = true →
      ∃ v, FP.isNan v = false ∧ ev = Event.setData "rho" (List.replicate e.n v)) ∧
    ((runDRS_v49 O e sp).filterMap (writeOf "rho") = [List.replicate e.n FP.nan] ∨
      ∃ v, FP.isNan v = false ∧
        (runDRS_v49 O e sp).filterMap (writeOf "rho") =
          [List.replicate e.n FP.nan, List.replicate e.n v]) ∧
    ((runDRS_v49 O e sp).filterMap createdName).Nodup := by
  obtain ⟨rm, fb, hres⟩ := resolveRM_some e.rmName e.rmNames h
  refine ⟨?_, ?_, ?_⟩
  · intro ev hev hsd
    unfold runDRS_v49 at hev
    rw [hres] at hev
    rcases List.mem_cons.mp hev with rfl | hev
    · simp [isSetDataE] at hsd
    · exact v49_setData_shape O e sp rm fb ev hev hsd
  · unfold runDRS_v49
    rw [hres]
    cases hs : scanRho O e.groups with
    | none =>
        left
        simp [runCore_v49, hs, List.filterMap_append, List.filterMap_map,
          List.filterMap_cons, writeOf, apply_ite (List.filterMap (writeOf "rho")),
          Function.comp]
    | some v =>
        right
        refine ⟨v, scanRho_isNan_false O e.groups v hs, ?_⟩
        simp [runCore_v49, hs, List.filterMap_append, List.filterMap_map,
          List.filterMap_cons, writeOf, apply_ite (List.filterMap (writeOf "rho")),
          Function.comp]
  · have hn : (runDRS_v49 O e sp).filterMap createdName = v49Names := by
      unfold runDRS_v49
      rw [hres, List.filterMap_cons]
      simpa [createdName] using v49_creations O e sp rm fb
    rw [hn]
    decide

theorem spec_C9_witness :
    (∀ ev ∈ runDRS_v49 oracleOne envZeroSm spErr, isSetDataE ev = true →
      ∃ v, FP.isNan v = false ∧
        ev = Event.setData "rho" (List.replicate envZeroSm.n v)) ∧
    ((runDRS_v49 oracleOne envZeroSm spErr).filterMap (writeOf "rho") =
        [List.replicate envZeroSm.n FP.nan] ∨
      ∃ v, FP.isNan v = false ∧
        (runDRS_v49 oracleOne envZeroSm spErr).filterMap (writeOf "rho") =
          [List.replicate envZeroSm.n FP.nan, List.replicate envZeroSm.n v]) ∧
    ((runDRS_v49 oracleOne envZeroSm spErr).filterMap createdName).Nodup :=
  spec_C9 oracleOne envZeroSm spErr (by decide)

/-- The scan loop is the first-success search over the non-Baseline
groups in enumeration order, skipping groups whose evaluation raises. -/
theorem scanRho_eq_findSome (O : Oracles) (gs : List SelGroup) :
    scanRho O gs = (gs.filter fun g => !g.isBaseline).findSome?
      (fun g => if !g.outerRaise && !(rhoValue O g).isNan then some (rhoValue O g) else none) := by
  induction gs with
  | nil => rfl
  | cons g gs ih =>
      unfold scanRho
      by_cases hb : g.isBaseline
      · simp [hb, ih]
      · by_cases hr : g.outerRaise
        · simp [hb, hr, List.filter_cons, List.findSome?_cons, ih]
        · by_cases hn : (rhoValue O g).isNan
          · simp [hb, hr, hn, List.filter_cons, List.findSome?_cons, ih]
          · simp [hb, hr, hn, List.filter_cons, List.findSome?_cons]

/-- Claim C10: if no non-Baseline group yields a non-NaN rho (skipping
raising evaluations), the flat "rho" series keeps its all-NaN creation
content; otherwise its final content is the constant array of the first
non-NaN rho found, which is non-NaN. -/
theorem spec_C10 (O : Oracles) (e : Env) (sp : SplineOracle) (h : e.rmNames ≠ []) :
    ((e.groups.filter fun g => !g.isBaseline).findSome?
        (fun g => if !g.outerRaise && !(rhoValue O g).isNan then some (rhoValue O g) else none) =
          none →
      lastWrite (runDRS_v49 O e sp) "rho" = some (List.replicate e.n FP.nan)) ∧
    (∀ v, (e.groups.filter fun g => !g.isBaseline).findSome?
        (fun g => if !g.outerRaise && !(rhoValue O g).isNan then some (rhoValue O g) else none) =
          some v →
      FP.isNan v = false ∧
      lastWrite (runDRS_v49 O e sp) "rho" = some (List.replicate e.n v)) := by
  obtain ⟨rm, fb, hres⟩ := resolveRM_some e.rmName e.rmNames h
  constructor
  · intro h0
    have hs : scanRho O e.groups = none := by rw [scanRho_eq_findSome]; exact h0
    unfold lastWrite runDRS_v49
    rw [hres]
    simp [runCore_v48, runCore_v49, hs, List.filterMap_append, List.filterMap_map,
      List.filterMap_cons, writeOf, apply_ite (List.filterMap (writeOf "rho")),
      Function.comp]
  · intro v h0
    have hs : scanRho O e.groups = some v := by rw [scanRho_eq_findSome]; exact h0
    refine ⟨scanRho_isNan_false O e.groups v hs, ?_⟩
    unfold lastWrite runDRS_v49
    rw [hres]
    simp [runCore_v49, hs, List.filterMap_append, List.filterMap_map,
      List.filterMap_cons, writeOf, apply_ite (List.filterMap (writeOf "rho")),
      Function.comp]

/-- Claim C2: with the propagate-errors setting enabled, `runDRS`
(v4.8, the variant carrying the setting) invokes the host propagation
routine exactly twice, in order, over exactly the non-Baseline
selection groups: once pairing the standardized 143Nd/144Nd series with
the raw corrected series and the resolved reference material, once
analogously for 147Sm/144Nd. -/
theorem spec_C2 (O : Oracles) (e : Env) (sp : SplineOracle) (hprop : e.propErrors = true) :
    ∀ rm fb, resolveRM e.rmName e.rmNames = some (rm, fb) →
    (runDRS_v48 O e sp).filterMap propagateOf =
      [((e.groups.filter fun g => !g.isBaseline).map SelGroup.name,
        ["StdCorr_143Nd_144"], "Nd143_144_Corr", rm),
       ((e.groups.filter fun g => !g.isBaseline).map SelGroup.name,
        ["StdCorr_147Sm_144"], "Sm147_Nd144_Corr", rm)] := by
  intro rm fb hres
  unfold runDRS_v48
  rw [hres]
  cases hs : scanRho O e.groups <;>
    simp [runCore_v48, hs, hprop, List.filterMap_append, List.filterMap_map,
      List.filterMap_cons, propagateOf, apply_ite (List.filterMap propagateOf),
      Function.comp]

theorem spec_C2_witness :
    (runDRS_v48 oracleOne envZeroSm spErr).filterMap propagateOf =
      [([], ["StdCorr_143Nd_144"], "Nd143_144_Corr", "G_LREE"),
       ([], ["StdCorr_147Sm_144"], "Sm147_Nd144_Corr", "G_LREE")] :=
  spec_C2 oracleOne envZeroSm spErr rfl "G_LREE" false (by decide)

theorem rhoValue_gGood : rhoValue oracleW gGood = FP.fin 1 := by
  norm_num [rhoValue, rho_corr_147Sm_143Nd, gGood, rhoFromData, validPair, validF,
    FP.isNan, FP.gt0, log10F, oracleW, corrcoefF, FP.isFinite, FP.toQ, corrcoefQ,
    meanQ, centered, covQ, varQ, List.zip, List.zipWith, List.filter, List.sum_cons,
    List.filter_cons]

theorem spec_C10_witness :
    lastWrite (runDRS_v49 oracleW envG1 spErr) "rho" =
      some (List.replicate envG1.n FP.nan) ∧
    (FP.isNan (FP.fin 1) = false ∧
      lastWrite (runDRS_v49 oracleW envG2 spErr) "rho" =
        some (List.replicate envG2.n (FP.fin 1))) := by
  constructor
  · exact (spec_C10 oracleW envG1 spErr (by decide)).1 (by decide)
  · refine (spec_C10 oracleW envG2 spErr (by decide)).2 (FP.fin 1) ?_
    have hgs : envG2.groups = [gGood] := rfl
    have hb : gGood.isBaseline = false := rfl
    have hr : gGood.outerRaise = false := rfl
    rw [hgs]
    simp [List.filter_cons, List.findSome?_cons, hb, hr, rhoValue_gGood, FP.isNan]

